import Mathlib

/-!
Verification of the SentimentAnalysisApp backend (src/backend/backend.js).

The backend is a small Express gateway with two endpoints:
* `POST /analyze/:id` — validates the identifier length, issues one upstream
  tweet lookup, normalizes the envelope via `sendRequestToTwitter`
  (`extractText` / `extractId` / `tweetIdIsValid`), classifies the result via
  `responseForFrontendIsError`, and answers 400 or 200.
* `POST /google/analyze` — forwards a document to the sentiment service via
  `analyzeSentiment` and answers with the upstream result when truthy.

We embed the JavaScript value universe shallowly (`JSVal`), model property
access with its throwing behaviour on `null`/`undefined` (`getProp`,
`getIndex`), and translate each backend function directly from the source.
-/

namespace SentimentApp

/-- A JavaScript runtime value. Numbers are carried as rationals: the backend
never performs arithmetic on them, it only moves them between fields, so any
faithful carrier suffices. Objects are association lists of fields. -/
inductive JSVal where
  | null
  | undefined
  | bool (b : Bool)
  | num (q : Rat)
  | str (s : String)
  | arr (elems : List JSVal)
  | obj (fields : List (String × JSVal))
deriving Repr

namespace JSVal

/-- JavaScript truthiness: `null`, `undefined`, `false`, `0`, and `""` are
falsy; every object and array (including the empty array) is truthy. -/
def truthy : JSVal → Bool
  | .null => false
  | .undefined => false
  | .bool b => b
  | .num q => q != 0
  | .str s => s != ""
  | .arr _ => true
  | .obj _ => true

/-- The JavaScript `typeof` operator restricted to the values we model.
Note `typeof null = "object"`. -/
def typeof : JSVal → String
  | .null => "object"
  | .undefined => "undefined"
  | .bool _ => "boolean"
  | .num _ => "number"
  | .str _ => "string"
  | .arr _ => "object"
  | .obj _ => "object"

/-- Field lookup in an object's association list; a missing field reads as
`undefined`, as in JavaScript. -/
def lookupD (fields : List (String × JSVal)) (k : String) : JSVal :=
  match fields.lookup k with
  | some v => v
  | none => .undefined

/-- Property access `v.k`. Throws a `TypeError` (modelled as `Except.error`
with the Node.js message) on `null` and `undefined`; on primitives it yields
`undefined` (none of the backend's accessed names is a primitive method);
on arrays, the named properties the backend reads are absent. -/
def getProp (v : JSVal) (k : String) : Except String JSVal :=
  match v with
  | .undefined =>
      .error ("Cannot read properties of undefined (reading " ++ "'" ++ k ++ "'" ++ ")")
  | .null =>
      .error ("Cannot read properties of null (reading " ++ "'" ++ k ++ "'" ++ ")")
  | .obj fields => .ok (lookupD fields k)
  | .arr _ => .ok .undefined
  | .bool _ => .ok .undefined
  | .num _ => .ok .undefined
  | .str _ => .ok .undefined

/-- Non-throwing variant of `getProp` used in specification statements:
a failed access reads as `undefined`. -/
def getPropD (v : JSVal) (k : String) : JSVal :=
  match getProp v k with
  | .ok w => w
  | .error _ => .undefined

/-- Index access `v[i]`. Throws on `null`/`undefined`; on an array it is the
element (or `undefined` past the end); on an object it reads the field named
by the index; on a string it is the one-character string (JS string
indexing); on other primitives it is `undefined`. -/
def getIndex (v : JSVal) (i : Nat) : Except String JSVal :=
  match v with
  | .undefined =>
      .error ("Cannot read properties of undefined (reading " ++ "'" ++ toString i ++ "'" ++ ")")
  | .null =>
      .error ("Cannot read properties of null (reading " ++ "'" ++ toString i ++ "'" ++ ")")
  | .arr elems =>
      .ok (match elems.get? i with
           | some w => w
           | none => .undefined)
  | .obj fields => .ok (lookupD fields (toString i))
  | .str s =>
      .ok (match s.toList.get? i with
           | some c => .str (String.mk [c])
           | none => .undefined)
  | .bool _ => .ok .undefined
  | .num _ => .ok .undefined

/-- True exactly on the structured values of the model: objects and arrays.
These are the values JavaScript `typeof` maps to `"object"` other than
`null`. -/
def isStructured : JSVal → Bool
  | .obj _ => true
  | .arr _ => true
  | _ => false

/-- True exactly on the null-equivalent absences `null` and `undefined`. -/
def isNullish : JSVal → Bool
  | .null => true
  | .undefined => true
  | _ => false

/-- The strict comparison `v === null` of JavaScript: true exactly on the
`null` value. -/
def isNullLit : JSVal → Bool
  | .null => true
  | _ => false

end JSVal

open JSVal

/-- Source `tweetIdIsValid` (backend.js:129-137):
`return tweet_response.data ? true : false;` — the truthiness of the `data`
field is the sole discriminator. -/
def tweetIdIsValid (tweet_response : JSVal) : Except String Bool := do
  let d ← getProp tweet_response "data"
  return truthy d

/-- Source `extractId` (backend.js:98-110): on the data variant
`tweet_response.data[0].id`, otherwise `tweet_response.errors[0].value`. -/
def extractId (tweet_response : JSVal) : Except String JSVal := do
  if (← tweetIdIsValid tweet_response) then
    getProp (← getIndex (← getProp tweet_response "data") 0) "id"
  else
    getProp (← getIndex (← getProp tweet_response "errors") 0) "value"

/-- Source `extractText` (backend.js:112-127): on the data variant
`tweet_response.data[0].text`, otherwise the object
`{message: errors[0].title, error: errors[0].detail}`. -/
def extractText (tweet_response : JSVal) : Except String JSVal := do
  if (← tweetIdIsValid tweet_response) then
    getProp (← getIndex (← getProp tweet_response "data") 0) "text"
  else
    let e0 ← getIndex (← getProp tweet_response "errors") 0
    let title ← getProp e0 "title"
    let e1 ← getIndex (← getProp tweet_response "errors") 0
    let detail ← getProp e1 "detail"
    return .obj [("message", title), ("error", detail)]

/-- The value standing for the JavaScript `Error` object thrown during
extraction: it carries the exception's message in its `message` property,
and it is what the catch handler stores under `full_stack`. -/
def jsErrorObj (msg : String) : JSVal :=
  .obj [("message", .str msg)]

/-- The try-block of source `sendRequestToTwitter` (backend.js:70-78):
read `twitter_response.data`, then `extractText`, then `extractId` (in that
order), and build `{text, id}`. -/
def extractTweetFields (twitter_response : JSVal) : Except String JSVal := do
  let twitter_json_data ← getProp twitter_response "data"
  let tweet_text ← extractText twitter_json_data
  let tweet_id ← extractId twitter_json_data
  return .obj [("text", tweet_text), ("id", tweet_id)]

/-- Source `sendRequestToTwitter` (backend.js:61-86): the try-block result on
success; the catch handler returns `{error: error.message, full_stack: error}`
on any exception. Total: it always returns a value, never rethrows. -/
def sendRequestToTwitter (twitter_response : JSVal) : JSVal :=
  match extractTweetFields twitter_response with
  | .ok v => v
  | .error msg => .obj [("error", .str msg), ("full_stack", jsErrorObj msg)]

/-- Source `buildURL` (backend.js:87-96). -/
def buildURL (tweet_id : String) : String :=
  "https://api.twitter.com/2" ++ ("/tweets?ids=" ++ tweet_id)

/-- Source `responseForFrontendIsError` (backend.js:139-157):
`typeof responseForFrontend.text === "object" && responseForFrontend.text !== null`.
The property access itself can throw (only on `null`/`undefined` input, which
the backend never feeds it), hence the `Except`. -/
def responseForFrontendIsError (responseForFrontend : JSVal) : Except String Bool := do
  let t ← getProp responseForFrontend "text"
  return (typeof t == "object") && !(isNullLit t)

/-- The classifier as used by the endpoint: the boolean plus the payload it
leaves untouched (the payload is serialized unmodified as the HTTP body). -/
def classify (responseForFrontend : JSVal) : Except String (Bool × JSVal) :=
  match responseForFrontendIsError responseForFrontend with
  | .ok b => .ok (b, responseForFrontend)
  | .error e => .error e

/-- The `400` body for a wrong-length identifier (backend.js:41-44). -/
def invalidIdBody : JSVal :=
  .obj [("error", .str "Invalid ID."),
        ("message", .str "ID must be a 19-character long Tweet ID.")]

/-- Source handler `app.post("/analyze/:id")` (backend.js:37-59), given the
(successfully resolved) axios response of the one upstream lookup. Returns
the response sent (`none` when the handler falls through without responding,
which in the source would be an unhandled rejection inside `.then`) together
with the list of upstream lookup URLs requested. -/
def analyzeEndpoint (id : String) (axios_response : JSVal) :
    Option (Nat × JSVal) × List String :=
  if id.length ≠ 19 then
    (some (400, invalidIdBody), [])
  else
    let data := sendRequestToTwitter axios_response
    match responseForFrontendIsError data with
    | .ok true => (some (400, data), [buildURL id])
    | .ok false => (some (200, data), [buildURL id])
    | .error _ => (none, [buildURL id])

/-- Source `analyzeSentiment` (backend.js:178-211), with the upstream call
abstracted as `Except` (`.error` = the awaited call rejected / threw).
Inside the try it reads `result.documentSentiment` and logs
`sentiment.score` and `sentiment.magnitude` (property accesses that throw
when `documentSentiment` is absent), then returns `result` when truthy.
The catch swallows every exception, so the function falls off the end and
returns `undefined` on any fault. -/
def analyzeSentiment (upstream : Except String JSVal) : JSVal :=
  match upstream with
  | .error _ => .undefined
  | .ok result =>
    match getProp result "documentSentiment" with
    | .error _ => .undefined
    | .ok sentiment =>
      match getProp sentiment "score" with
      | .error _ => .undefined
      | .ok _ =>
        match getProp sentiment "magnitude" with
        | .error _ => .undefined
        | .ok _ => if truthy result then result else .undefined

/-- Source handler `app.post("/google/analyze")` (backend.js:163-176):
`res.send(response)` (status 200) when the result is truthy, otherwise no
response is sent at all. The handler's catch branch
(`res.status(401).send("error")`) is unreachable: `analyzeSentiment` is
total (it catches everything internally), so the try-block never throws. -/
def googleAnalyze (upstream : Except String JSVal) : Option (Nat × JSVal) :=
  let response := analyzeSentiment upstream
  if truthy response then some (200, response) else none

/-- Specification-side decision rule of the Response Normalizer, written
from the spec's words: a payload is an error iff its `text` field's runtime
value is a structured object (not a primitive string) and is not a
null-equivalent absence. Compared against `responseForFrontendIsError`. -/
def specIsError (textValue : JSVal) : Bool :=
  isStructured textValue && !(isNullish textValue)

/-! Helper lemmas shared by the claim theorems. -/

/-- The runtime type test of the source classifier agrees, value by value,
with the spec's structural description. -/
theorem typeTest_eq_specIsError (t : JSVal) :
    ((typeof t == "object") && !(isNullLit t)) = specIsError t := by
  cases t <;> rfl

/-- Property access only throws on the two null-equivalent values; on every
other value it succeeds with the defaulted read. -/
theorem getProp_ok_of_not_nullish (v : JSVal) (k : String)
    (h : isNullish v = false) : getProp v k = .ok (getPropD v k) := by
  cases v
  case null => simp [isNullish] at h
  case undefined => simp [isNullish] at h
  all_goals rfl

/-! Claim theorems. -/

/-- C1 (counterexample): on the spec's own scenario-C envelope
`{errors: [{title: "Not Found Error", detail: "Could not find tweet with id: ..."}]}`,
the result produced by `sendRequestToTwitter` is NOT the object
`{message: errors[0].title, error: errors[0].detail}`: the normalized pair is
nested under the result's `text` field, so the result's own `message` field
reads as `undefined`; moreover the claimed object itself would be classified
as success (its `text` field is absent), not as error. -/
theorem c1_counterexample :
    sendRequestToTwitter
        (.obj [("data", .obj [("errors", .arr [.obj
          [("title", .str "Not Found Error"),
           ("detail", .str "Could not find tweet with id: [0000000000000000000].")]])])])
      ≠ .obj [("message", .str "Not Found Error"),
              ("error", .str "Could not find tweet with id: [0000000000000000000].")]
    ∧ getPropD (sendRequestToTwitter
        (.obj [("data", .obj [("errors", .arr [.obj
          [("title", .str "Not Found Error"),
           ("detail", .str "Could not find tweet with id: [0000000000000000000].")]])])]))
        "message" = .undefined
    ∧ responseForFrontendIsError
        (.obj [("message", .str "Not Found Error"),
               ("error", .str "Could not find tweet with id: [0000000000000000000].")])
      = .ok false := by
  refine ⟨?_, rfl, rfl⟩
  intro h
  have h' : (JSVal.obj
      [("text", .obj [("message", .str "Not Found Error"),
                      ("error", .str "Could not find tweet with id: [0000000000000000000].")]),
       ("id", .undefined)] : JSVal)
      = .obj [("message", .str "Not Found Error"),
              ("error", .str "Could not find tweet with id: [0000000000000000000].")] := h
  simp at h'

/-- C1 (amended): for every error-variant envelope (no `data` field, errors
sequence starting with a record `e0`), the normalized result is
`{text: {message: e0.title, error: e0.detail}, id: e0.value}` — the
`{message, error}` pair sits under the `text` field — and that result is
classified as an error by the Response Normalizer. -/
theorem c1_error_variant_normalization (l : List (String × JSVal)) (rest : List JSVal) :
    sendRequestToTwitter (.obj [("data", .obj [("errors", .arr (.obj l :: rest))])]) =
      .obj [("text", .obj [("message", lookupD l "title"), ("error", lookupD l "detail")]),
            ("id", lookupD l "value")]
    ∧ responseForFrontendIsError
        (sendRequestToTwitter (.obj [("data", .obj [("errors", .arr (.obj l :: rest))])]))
      = .ok true :=
  ⟨rfl, rfl⟩

/-- C2: for every data-variant envelope whose `data` sequence starts with a
record `r0` whose `text` field is a string, the normalized result carries
exactly `r0.text` and `r0.id` (as a JS object `{text, id}`, equal as an
object to `{id: data[0].id, text: data[0].text}`); no later record (`rest`)
is consulted; and the result is classified as success. -/
theorem c2_data_variant_normalization (l : List (String × JSVal)) (rest : List JSVal)
    (t : String) (h : lookupD l "text" = .str t) :
    sendRequestToTwitter (.obj [("data", .obj [("data", .arr (.obj l :: rest))])]) =
      .obj [("text", .str t), ("id", lookupD l "id")]
    ∧ responseForFrontendIsError
        (sendRequestToTwitter (.obj [("data", .obj [("data", .arr (.obj l :: rest))])]))
      = .ok false := by
  have e : sendRequestToTwitter (.obj [("data", .obj [("data", .arr (.obj l :: rest))])]) =
      .obj [("text", lookupD l "text"), ("id", lookupD l "id")] := rfl
  rw [e, h]
  exact ⟨rfl, rfl⟩

/-- C2 witness: scenario A's envelope, extended with a second record that is
provably ignored. -/
theorem c2_witness :
    sendRequestToTwitter
        (.obj [("data", .obj [("data", .arr
          [.obj [("id", .str "1234567890123456789"), ("text", .str "hello")],
           .obj [("id", .str "9999999999999999999"), ("text", .str "ignored")]])])]) =
      .obj [("text", .str "hello"),
            ("id", lookupD [("id", .str "1234567890123456789"), ("text", .str "hello")] "id")]
    ∧ responseForFrontendIsError
        (sendRequestToTwitter
          (.obj [("data", .obj [("data", .arr
            [.obj [("id", .str "1234567890123456789"), ("text", .str "hello")],
             .obj [("id", .str "9999999999999999999"), ("text", .str "ignored")]])])]))
      = .ok false :=
  c2_data_variant_normalization
    [("id", .str "1234567890123456789"), ("text", .str "hello")]
    [.obj [("id", .str "9999999999999999999"), ("text", .str "ignored")]]
    "hello" rfl

/-- C3: for every payload on which the classifier's property access can run
(every JS value except `null` and `undefined`, which the backend never feeds
it), the payload is classified as an error if and only if its `text` field's
runtime value is a structured object (object or array) and not a
null-equivalent absence — exactly the spec's decision rule `specIsError`. -/
theorem c3_classification_rule (r : JSVal) (h : isNullish r = false) :
    responseForFrontendIsError r = .ok (specIsError (getPropD r "text")) := by
  cases r
  case null => simp [isNullish] at h
  case undefined => simp [isNullish] at h
  case obj fields =>
    have e : responseForFrontendIsError (.obj fields) =
        .ok ((typeof (lookupD fields "text") == "object")
              && !(isNullLit (lookupD fields "text"))) := rfl
    rw [e, typeTest_eq_specIsError]
    rfl
  all_goals rfl

/-- C3 witness: a payload whose `text` field is a structured object is
classified as an error. -/
theorem c3_witness :
    responseForFrontendIsError
        (.obj [("text", .obj [("message", .str "m"), ("error", .str "d")])])
      = .ok true :=
  c3_classification_rule
    (.obj [("text", .obj [("message", .str "m"), ("error", .str "d")])]) rfl

/-- C4: for every identifier whose length is not 19 and any upstream state,
the analysis endpoint answers 400 with body
`{error: "Invalid ID.", message: "ID must be a 19-character long Tweet ID."}`
and the list of upstream lookup calls issued is empty. -/
theorem c4_invalid_length_rejected (id : String) (axios_response : JSVal)
    (h : id.length ≠ 19) :
    analyzeEndpoint id axios_response =
      (some (400, .obj [("error", .str "Invalid ID."),
                        ("message", .str "ID must be a 19-character long Tweet ID.")]),
       []) := by
  unfold analyzeEndpoint
  rw [if_pos h]
  rfl

/-- C4 witness: scenario B's identifier `"short"`. -/
theorem c4_witness :
    analyzeEndpoint "short" .undefined =
      (some (400, .obj [("error", .str "Invalid ID."),
                        ("message", .str "ID must be a 19-character long Tweet ID.")]),
       []) :=
  c4_invalid_length_rejected "short" .undefined (by decide)

/-- C5 (code evaluated at the failing input): when the upstream sentiment
call faults, the gateway sends NO response at all — not the uniform 401 the
spec requires. `analyzeSentiment` swallows the fault and returns `undefined`,
so the handler's `if (response)` guard skips `res.send` and its 401 catch
branch never runs. -/
theorem c5_fault_yields_no_response :
    googleAnalyze (.error "upstream auth failure") = none := rfl

/-- C6 (counterexample): on an envelope whose `data` field is the (truthy)
number 1, extraction throws and the catch handler's result has an `error`
field holding the exception message and a `full_stack` field holding the
error object — but NO `message` field (it reads as `undefined`), so the
result does not match the failure variant `{message, error}` of
`TweetLookupResult`. -/
theorem c6_counterexample :
    getPropD (sendRequestToTwitter (.obj [("data", .obj [("data", .num 1)])]))
        "message" = .undefined
    ∧ getPropD (sendRequestToTwitter (.obj [("data", .obj [("data", .num 1)])]))
        "error" = .str "Cannot read properties of undefined (reading 'text')"
    ∧ getPropD (sendRequestToTwitter (.obj [("data", .obj [("data", .num 1)])]))
        "full_stack"
      = jsErrorObj "Cannot read properties of undefined (reading 'text')" :=
  ⟨rfl, rfl, rfl⟩

/-- C6 (amended): whenever field extraction throws with message `m`, the
Tweet Resolution Client catches it and returns the failure object
`{error: m, full_stack: <the error object>}` — it carries the exception's
message and diagnostic payload and never propagates the fault, but its shape
is `{error, full_stack}`, not the `{message, error}` failure variant. -/
theorem c6_extraction_fault_contained (w : JSVal) (m : String)
    (h : extractTweetFields w = .error m) :
    sendRequestToTwitter w = .obj [("error", .str m), ("full_stack", jsErrorObj m)] := by
  unfold sendRequestToTwitter
  rw [h]

/-- C6 witness: the empty-`data`-array envelope makes extraction throw. -/
theorem c6_witness :
    sendRequestToTwitter (.obj [("data", .obj [("data", .arr [])])]) =
      .obj [("error", .str "Cannot read properties of undefined (reading 'text')"),
            ("full_stack",
             jsErrorObj "Cannot read properties of undefined (reading 'text')")] :=
  c6_extraction_fault_contained (.obj [("data", .obj [("data", .arr [])])])
    "Cannot read properties of undefined (reading 'text')" rfl

/-- C7 (counterexample): when the upstream call resolves with the bare
sentiment summary `{score: 0.8, magnitude: 0.9}` itself — the claim's own
example value — the handler sends no 200 response at all: the code reads
`result.documentSentiment`, which is `undefined`, then throws while logging
`sentiment.score`; the catch swallows it and the endpoint never responds. -/
theorem c7_counterexample :
    googleAnalyze (.ok (.obj [("score", .num (4/5)), ("magnitude", .num (9/10))]))
      = none := rfl

/-- C7 (amended): when the upstream call resolves with a (truthy) result
object whose `documentSentiment` field is present (not null-equivalent, so
`score` and `magnitude` can be read from it for logging), the endpoint
responds 200 with the full result object — the sentiment summary nested
inside it under `documentSentiment` — not with the summary alone. -/
theorem c7_sentiment_success (r s : JSVal)
    (h1 : getProp r "documentSentiment" = .ok s)
    (h2 : isNullish s = false)
    (h3 : truthy r = true) :
    googleAnalyze (.ok r) = some (200, r) := by
  have hs := getProp_ok_of_not_nullish s "score" h2
  have hm := getProp_ok_of_not_nullish s "magnitude" h2
  unfold googleAnalyze analyzeSentiment
  simp only [h1, hs, hm, h3, if_true]

/-- C7 witness: an upstream result carrying the scenario-D summary under
`documentSentiment` is answered 200 with the whole result object. -/
theorem c7_witness :
    googleAnalyze (.ok (.obj [("documentSentiment",
        .obj [("score", .num (4/5)), ("magnitude", .num (9/10))])])) =
      some (200, .obj [("documentSentiment",
        .obj [("score", .num (4/5)), ("magnitude", .num (9/10))])]) :=
  c7_sentiment_success
    (.obj [("documentSentiment",
        .obj [("score", .num (4/5)), ("magnitude", .num (9/10))])])
    (.obj [("score", .num (4/5)), ("magnitude", .num (9/10))])
    rfl rfl rfl

/-- C8: classification is idempotent — the classifier returns the payload
unmodified, and classifying that returned payload again yields the same
boolean (and the same payload). -/
theorem c8_classification_idempotent (r : JSVal) (b : Bool) (p : JSVal)
    (h : classify r = .ok (b, p)) : classify p = .ok (b, p) := by
  unfold classify at h ⊢
  cases hr : responseForFrontendIsError r with
  | error e => rw [hr] at h; exact absurd h (by simp)
  | ok b' =>
    rw [hr] at h
    simp only [Except.ok.injEq, Prod.mk.injEq] at h
    obtain ⟨h1, h2⟩ := h
    subst h1
    subst h2
    rw [hr]

/-- C8 witness: a success payload classifies to `false` and reclassifies to
`false`. -/
theorem c8_witness :
    classify (.obj [("text", .str "hi")]) = .ok (false, .obj [("text", .str "hi")]) :=
  c8_classification_idempotent (.obj [("text", .str "hi")]) false
    (.obj [("text", .str "hi")]) rfl

/-- C9: for the envelope `{data: []}` the discriminator is satisfied (an
empty array is truthy), the DataVariant path is taken, extraction of element
0 throws reading `text`, the catch handler returns
`{error: <message>, full_stack: <error object>}` — a result with no `text`
field — and the endpoint classifies that result as success, answering 200
after issuing exactly one upstream lookup. -/
theorem c9_empty_data_array_success_path :
    tweetIdIsValid (.obj [("data", .arr [])]) = .ok true
    ∧ sendRequestToTwitter (.obj [("data", .obj [("data", .arr [])])]) =
        .obj [("error", .str "Cannot read properties of undefined (reading 'text')"),
              ("full_stack",
               jsErrorObj "Cannot read properties of undefined (reading 'text')")]
    ∧ getPropD (sendRequestToTwitter (.obj [("data", .obj [("data", .arr [])])]))
        "text" = .undefined
    ∧ responseForFrontendIsError
        (sendRequestToTwitter (.obj [("data", .obj [("data", .arr [])])])) = .ok false
    ∧ analyzeEndpoint "0000000000000000000" (.obj [("data", .obj [("data", .arr [])])]) =
        (some (200,
          .obj [("error", .str "Cannot read properties of undefined (reading 'text')"),
                ("full_stack",
                 jsErrorObj "Cannot read properties of undefined (reading 'text')")]),
         ["https://api.twitter.com/2/tweets?ids=0000000000000000000"]) :=
  ⟨rfl, rfl, rfl, rfl, rfl⟩

/-- C10: `analyzeSentiment` is a total function of the modelled upstream
outcome — on every upstream fault it returns `undefined` rather than
throwing — and consequently the free-text sentiment endpoint takes neither
the send branch nor the (dead) 401 catch branch: it sends no response. -/
theorem c10_fault_swallowed_no_response (msg : String) :
    analyzeSentiment (.error msg) = .undefined
    ∧ googleAnalyze (.error msg) = none :=
  ⟨rfl, rfl⟩

end SentimentApp
